import Mathlib

/-!
Verification of the Run Orchestration Subsystem of the v8-optimization-lab
repository, shallowly embedded from:

* `src/server/src/types.ts` — the data model (`RunStatus`, `RunOptions`,
  `RunMetadata`);
* `src/server/src/validation.ts` — the zod schema `runOptionsSchema`;
* `src/server/src/services/RunService.ts` — `createRun`, `processQueue`,
  `executeRun`, `listRuns`, `saveMetadata`;
* `src/unnamed/part_005` — the Express router for `/api/runs`
  (POST admission and the `/:id/stream` SSE handler).

Machine integers are modelled as `Int` (JavaScript numbers after zod's
`.int()` check), timestamps as `Nat` (milliseconds since epoch, the value of
`Date.now()` / the instant behind `toISOString()`).  File I/O is modelled as
an association list keyed by run id (one JSON file per run), and the
`execa` child process as an explicit outcome value.
-/

namespace V8Lab

/-- `RunStatus` from `types.ts`: `'queued' | 'running' | 'completed' | 'failed'`. -/
inductive RunStatus
  | queued
  | running
  | completed
  | failed
deriving DecidableEq

/-- The closed variant set from `validation.ts`: `z.enum(['baseline', 'deopt', 'fixed'])`. -/
inductive Variant
  | baseline
  | deopt
  | fixed
deriving DecidableEq

/-- `RunOptions` from `types.ts`.  The source field `repeat` is a Lean keyword
and is rendered `repeatCount` here. -/
structure RunOptions where
  exp : String
  variant : Variant
  trace : Bool
  profile : Bool
  warmup : Int
  repeatCount : Int
deriving DecidableEq

/-- The `options` sub-record of `RunMetadata` (`types.ts`). -/
structure RecordedOptions where
  trace : Bool
  profile : Bool
  warmup : Int
  repeatCount : Int
deriving DecidableEq

/-- The `environment` sub-record of `RunMetadata`: the host's runtime version
info (`process.version`, `process.versions.v8`, `process.platform`,
`process.arch`). -/
structure Environment where
  nodeVersion : String
  v8Version : String
  platform : String
  arch : String
deriving DecidableEq

/-- The `timestamps` sub-record of `RunMetadata`: `queued`, optional
`started` and `completed`. -/
structure Timestamps where
  queued : Nat
  started : Option Nat
  completed : Option Nat
deriving DecidableEq

/-- The `results` sub-record of `RunMetadata`: `exitCode`, `durationMs`. -/
structure RunResults where
  exitCode : Int
  durationMs : Int
deriving DecidableEq

/-- The `artifacts` sub-record of `RunMetadata`: optional `stdout`, `stderr`,
`cpuProfile` relative paths. -/
structure Artifacts where
  stdout : Option String
  stderr : Option String
  cpuProfile : Option String
deriving DecidableEq

/-- `RunMetadata` from `types.ts`: the persisted record of one run. -/
structure RunMetadata where
  id : String
  experiment : String
  variant : Variant
  options : RecordedOptions
  status : RunStatus
  timestamps : Timestamps
  environment : Environment
  results : Option RunResults
  artifacts : Artifacts
deriving DecidableEq

/-! ## Validation (`src/server/src/validation.ts`) -/

/-- A character matched by the JavaScript regex class `[\w-]`
(ASCII letters, digits, underscore, hyphen). -/
def isWordChar (c : Char) : Bool :=
  c.isAlpha || c.isDigit || c = '_' || c = '-'

/-- The `exp` field check of `runOptionsSchema`:
`z.string().min(1).max(100).regex(/^[\w-]+$/)`, expressed over the
string's character list. -/
def validExpId (s : String) : Bool :=
  decide (1 ≤ s.data.length) && decide (s.data.length ≤ 100) && s.data.all isWordChar

/-- The `variant` field check: `z.enum(['baseline', 'deopt', 'fixed'])`. -/
def parseVariant (s : String) : Option Variant :=
  if s = "baseline" then some Variant.baseline
  else if s = "deopt" then some Variant.deopt
  else if s = "fixed" then some Variant.fixed
  else none

/-- An incoming request body for `POST /api/runs`, before validation.
Each field is `none` when absent from the JSON payload. -/
structure RunRequestBody where
  exp : Option String
  variant : Option String
  trace : Option Bool
  profile : Option Bool
  warmup : Option Int
  repeatCount : Option Int
deriving DecidableEq

/-- A zod `z.number().int().min(lo).max(hi).optional().default(dflt)` field:
absent values take the default, present values must lie in `[lo, hi]`. -/
def checkIntField (v : Option Int) (lo hi dflt : Int) : Option Int :=
  match v with
  | none => some dflt
  | some n => if lo ≤ n && n ≤ hi then some n else none

/-- `runOptionsSchema.safeParse` from `validation.ts`, returning the
validated options on success and `none` on any validation failure. -/
def runOptionsSchemaParse (b : RunRequestBody) : Option RunOptions :=
  match b.exp with
  | none => none
  | some e =>
    if validExpId e then
      match b.variant with
      | none => none
      | some vs =>
        match parseVariant vs with
        | none => none
        | some v =>
          match checkIntField b.warmup 0 100000 1000 with
          | none => none
          | some w =>
            match checkIntField b.repeatCount 1 1000000 100000 with
            | none => none
            | some r =>
              some { exp := e, variant := v, trace := b.trace.getD false,
                     profile := b.profile.getD false, warmup := w, repeatCount := r }
    else none

/-! ## Run creation (`RunService.createRun`) -/

/-- The empty `artifacts: {}` object set by `createRun`. -/
def emptyArtifacts : Artifacts :=
  { stdout := none, stderr := none, cpuProfile := none }

/-- The `RunMetadata` value constructed by `RunService.createRun`: fresh id,
status `'queued'`, `timestamps.queued = now`, environment snapshotted from
the host at that moment, no results, empty artifacts. -/
def createRunMetadata (id : String) (now : Nat) (env : Environment)
    (o : RunOptions) : RunMetadata :=
  { id := id
    experiment := o.exp
    variant := o.variant
    options := { trace := o.trace, profile := o.profile,
                 warmup := o.warmup, repeatCount := o.repeatCount }
    status := RunStatus.queued
    timestamps := { queued := now, started := none, completed := none }
    environment := env
    results := none
    artifacts := emptyArtifacts }

/-- The `QueuedRun` interface of `RunService.ts`. -/
structure QueuedRun where
  id : String
  options : RunOptions
  metadata : RunMetadata
deriving DecidableEq

/-- One admission: the inputs `createRun` draws on (fresh uuid, current
time, current host environment) together with the validated options. -/
structure Submission where
  id : String
  now : Nat
  env : Environment
  options : RunOptions
deriving DecidableEq

/-- The `QueuedRun` value `createRun` pushes onto the queue. -/
def mkQueuedRun (sub : Submission) : QueuedRun :=
  { id := sub.id, options := sub.options,
    metadata := createRunMetadata sub.id sub.now sub.env sub.options }

/-! ## Process execution (`RunService.executeRun`) -/

/-- The error object thrown by `execa` when the child fails: an optional
`exitCode` (absent when the process was killed or never spawned), the
`timedOut` flag, and the human-readable `message`. -/
structure ExecaError where
  exitCode : Option Int
  timedOut : Bool
  message : String
deriving DecidableEq

/-- How the awaited `execa` invocation resolves: normally, or by throwing. -/
inductive ExecOutcome
  | success
  | failure (e : ExecaError)
deriving DecidableEq

/-- JavaScript `x || d` on an optional number: `d` when `x` is
absent or zero. -/
def jsOrInt (x : Option Int) (d : Int) : Int :=
  match x with
  | none => d
  | some c => if c = 0 then d else c

/-- JavaScript `s || d` on a string: `d` when `s` is empty. -/
def jsOrStr (s d : String) : String :=
  if s = "" then d else s

/-- The wire name of a variant, as interpolated into artifact paths. -/
def Variant.str : Variant → String
  | Variant.baseline => "baseline"
  | Variant.deopt => "deopt"
  | Variant.fixed => "fixed"

/-- One observed execution of the child process: start and end instants,
the interleaved output chunks (`true` marks a stderr chunk), and how the
awaited promise resolved. -/
structure RunExec where
  startedAt : Nat
  finishedAt : Nat
  chunks : List (Bool × String)
  outcome : ExecOutcome
deriving DecidableEq

/-- The first mutation of `executeRun`: `status = 'running'`,
`timestamps.started = now`, everything else untouched. -/
def runningMetadata (m : RunMetadata) (startedAt : Nat) : RunMetadata :=
  { m with status := RunStatus.running,
           timestamps := { m.timestamps with started := some startedAt } }

/-- The `metadata.artifacts` assignment on the success path of
`executeRun`: stdout always, stderr only under `trace`, cpuProfile only
under `profile`. -/
def successArtifacts (o : RunOptions) : Artifacts :=
  { stdout := some (o.exp ++ "/" ++ o.variant.str ++ "/latest/stdout.log")
    stderr := if o.trace then some (o.exp ++ "/" ++ o.variant.str ++ "/latest/trace.log")
              else none
    cpuProfile := if o.profile then some (o.exp ++ "/" ++ o.variant.str ++ "/latest/*.cpuprofile")
                  else none }

/-- The terminal record `executeRun` saves: on success status `'completed'`,
`exitCode 0` and the artifact paths; on a thrown error status `'failed'`,
`exitCode = error.exitCode || 1` and the artifacts left as they were. -/
def terminalMetadata (q : QueuedRun) (e : RunExec) : RunMetadata :=
  let m1 := runningMetadata q.metadata e.startedAt
  match e.outcome with
  | ExecOutcome.success =>
    { m1 with status := RunStatus.completed,
              timestamps := { m1.timestamps with completed := some e.finishedAt },
              results := some { exitCode := 0,
                                durationMs := (e.finishedAt : Int) - (e.startedAt : Int) },
              artifacts := successArtifacts q.options }
  | ExecOutcome.failure err =>
    { m1 with status := RunStatus.failed,
              timestamps := { m1.timestamps with completed := some e.finishedAt },
              results := some { exitCode := jsOrInt err.exitCode 1,
                                durationMs := (e.finishedAt : Int) - (e.startedAt : Int) } }

/-- The sequence of `saveMetadata` calls `executeRun` makes for one run:
the running snapshot, then the terminal record. -/
def executeRunSaves (q : QueuedRun) (e : RunExec) : List RunMetadata :=
  [runningMetadata q.metadata e.startedAt, terminalMetadata q e]

/-- The events `RunService` emits (`run:start`, `run:stdout`, `run:stderr`,
`run:error`, `run:complete`). -/
inductive RunEvent
  | start (id : String)
  | stdout (id : String) (chunk : String)
  | stderr (id : String) (chunk : String)
  | error (id : String) (msg : String)
  | complete (id : String) (m : RunMetadata)
deriving DecidableEq

/-- A child output chunk as emitted: stderr chunks come from the stderr
stream listener, the rest from stdout. -/
def chunkEvent (id : String) : Bool × String → RunEvent
  | (false, c) => RunEvent.stdout id c
  | (true, c) => RunEvent.stderr id c

/-- The event sequence `executeRun` emits for one run: `run:start`, the
output chunks, on a thrown error a single `run:error` carrying
`error.message || 'Unknown error'`, and finally `run:complete` with the
terminal record. -/
def executeRunEvents (q : QueuedRun) (e : RunExec) : List RunEvent :=
  RunEvent.start q.id ::
    (e.chunks.map (chunkEvent q.id) ++
      (match e.outcome with
       | ExecOutcome.success => []
       | ExecOutcome.failure err => [RunEvent.error q.id (jsOrStr err.message "Unknown error")]) ++
      [RunEvent.complete q.id (terminalMetadata q e)])

/-! ## The store (`saveMetadata` over one JSON file per run id) -/

/-- The runs directory: one entry per file name (run id). -/
abbrev Store := List (String × RunMetadata)

/-- `saveMetadata`: `writeFile` of `<id>.json` replaces the record stored
under that id, or creates it. -/
def applySave : Store → RunMetadata → Store
  | [], m => [(m.id, m)]
  | p :: rest, m => if p.1 = m.id then (m.id, m) :: rest else p :: applySave rest m

/-- Whether a record's status is `'running'`. -/
def isRunning (m : RunMetadata) : Bool :=
  m.status = RunStatus.running

/-- The number of stored records in status `'running'`. -/
def countRunning (s : Store) : Nat :=
  (s.filter (fun p => isRunning p.2)).length

/-! ## The worker loop (`createRun` / `processQueue`)

`processQueue` is guarded by the `processing` flag and so runs as a single
logical thread: it pops one queued run at a time and runs `executeRun` to a
terminal save before touching the next.  Concurrent `createRun` calls only
interleave their initial queued-status save.  A system history is therefore
a sequence of trace items — each either one `createRun` save or one
complete `executeRun` save pair — and the store evolves by folding
`applySave` over the flattened save sequence. -/

/-- One atomic contribution to the save trace: a `createRun` admission save,
or the save pair of one `executeRun`. -/
inductive TraceItem
  | submit (sub : Submission)
  | execute (sub : Submission) (e : RunExec)
deriving DecidableEq

/-- The `saveMetadata` calls one trace item performs. -/
def itemSaves : TraceItem → List RunMetadata
  | TraceItem.submit sub => [createRunMetadata sub.id sub.now sub.env sub.options]
  | TraceItem.execute sub e => executeRunSaves (mkQueuedRun sub) e

/-- The full sequence of `saveMetadata` calls of a system history. -/
def traceSaves (items : List TraceItem) : List RunMetadata :=
  (items.map itemSaves).flatten

/-! ## The POST /api/runs route (`src/unnamed/part_005`) -/

/-- What one `POST /api/runs` request produces: the HTTP status, the queue
afterwards, the `saveMetadata` calls performed, and the id returned to the
caller (absent on rejection). -/
structure PostResult where
  statusCode : Nat
  newQueue : List QueuedRun
  storeSaves : List RunMetadata
  returnedId : Option String
deriving DecidableEq

/-- The `POST /api/runs` handler: `runOptionsSchema.safeParse` on the body;
on failure respond 400 and do nothing else; on success `createRun` (fresh
id, queued metadata saved, run appended to the queue) and respond 201 with
the id. -/
def postRun (b : RunRequestBody) (id : String) (now : Nat) (env : Environment)
    (queue : List QueuedRun) : PostResult :=
  match runOptionsSchemaParse b with
  | none => { statusCode := 400, newQueue := queue, storeSaves := [], returnedId := none }
  | some o =>
    let m := createRunMetadata id now env o
    { statusCode := 201
      newQueue := queue ++ [{ id := id, options := o, metadata := m }]
      storeSaves := [m]
      returnedId := some id }

/-! ## The SSE stream route (`GET /api/runs/:id/stream`, `src/unnamed/part_005`) -/

/-- The Server-Sent Events the stream route writes (`type` field of the
JSON payload: `status`, `stdout`, `stderr`, `error`, `complete`). -/
inductive SSEEvent
  | status (s : RunStatus)
  | stdout (chunk : String)
  | stderr (chunk : String)
  | error (msg : String)
  | complete (run : RunMetadata)
deriving DecidableEq

/-- Whether a status is terminal: the route's
`run.status === 'completed' || run.status === 'failed'` test. -/
def isTerminal (s : RunStatus) : Bool :=
  s = RunStatus.completed || s = RunStatus.failed

/-- The listeners the stream route registers, applied to the subsequent
`RunService` events: chunks and errors for the subscribed id are forwarded,
and the stream ends (listeners removed) at that id's `run:complete`. -/
def liveToSSE (id : String) : List RunEvent → List SSEEvent
  | [] => []
  | RunEvent.start _ :: rest => liveToSSE id rest
  | RunEvent.stdout i c :: rest =>
    if i = id then SSEEvent.stdout c :: liveToSSE id rest else liveToSSE id rest
  | RunEvent.stderr i c :: rest =>
    if i = id then SSEEvent.stderr c :: liveToSSE id rest else liveToSSE id rest
  | RunEvent.error i msg :: rest =>
    if i = id then SSEEvent.error msg :: liveToSSE id rest else liveToSSE id rest
  | RunEvent.complete i m :: rest =>
    if i = id then [SSEEvent.complete m] else liveToSSE id rest

/-- The full event sequence a subscriber receives from the stream route for
the run record `run` read at subscription time, given the `RunService`
events `live` emitted afterwards: an initial `status` event always; then,
if the run is already terminal, a single `complete` event and the stream
closes; otherwise the forwarded live events. -/
def streamEvents (run : RunMetadata) (live : List RunEvent) : List SSEEvent :=
  SSEEvent.status run.status ::
    (if isTerminal run.status then [SSEEvent.complete run] else liveToSSE run.id live)

/-! ## Listing runs (`RunService.listRuns`) -/

/-- A file in the runs directory: its name and, as the result of
`JSON.parse` on its content, either a record or `none` when reading or
parsing throws. -/
structure StoredFile where
  name : String
  content : Option RunMetadata

/-- The records `listRuns` collects before sorting: `.json` files only,
parse failures skipped. -/
def parsedRuns (files : List StoredFile) : List RunMetadata :=
  (files.filter (fun f => f.name.endsWith ".json")).filterMap (fun f => f.content)

/-- The sort order of `listRuns`: the comparator
`(a, b) => new Date(b.timestamps.queued).getTime() - new Date(a.timestamps.queued).getTime()`
puts larger (newer) queued timestamps first. -/
def newerFirst (a b : RunMetadata) : Prop :=
  b.timestamps.queued ≤ a.timestamps.queued

instance : DecidableRel newerFirst :=
  fun a b => inferInstanceAs (Decidable (b.timestamps.queued ≤ a.timestamps.queued))

instance : IsTotal RunMetadata newerFirst :=
  ⟨fun a b => Nat.le_total b.timestamps.queued a.timestamps.queued⟩

instance : IsTrans RunMetadata newerFirst :=
  ⟨fun _ _ _ hab hbc => Nat.le_trans hbc hab⟩

/-- `RunService.listRuns`: read every `.json` file in the runs directory,
skip those that fail to parse, and return them sorted newest queued first. -/
def listRuns (files : List StoredFile) : List RunMetadata :=
  (parsedRuns files).insertionSort newerFirst

/-! ## The experiment catalog

The catalog entries are the experiment directories of `experiments/`
(enumerated by `ExperimentsService.listExperiments`). -/

/-- The experiment directories present in `experiments/`. -/
def knownExperiments : List String :=
  ["01-hidden-classes", "02-inline-caches", "03-elements-kinds",
   "04-numbers-smis-doubles", "05-polymorphism-megamorphism",
   "06-try-catch-and-bailouts", "09-delete-in-operators",
   "20-realistic-mini-server-hotpath"]

/-! ## Concrete fixtures used in witnesses and counterexamples -/

/-- A sample host environment at admission time. -/
def env0 : Environment :=
  { nodeVersion := "v20.11.0", v8Version := "11.8.172.17", platform := "linux", arch := "x64" }

/-- A distinct host environment, standing for the host's runtime info at the
instant the run transitions to Running. -/
def env9 : Environment :=
  { nodeVersion := "v22.1.0", v8Version := "12.4.254.14", platform := "linux", arch := "x64" }

/-- Sample validated options: all defaults, a known experiment. -/
def opts0 : RunOptions :=
  { exp := "01-hidden-classes", variant := Variant.baseline, trace := false,
    profile := false, warmup := 1000, repeatCount := 100000 }

/-- Sample options with both `trace` and `profile` enabled. -/
def optsTrace : RunOptions :=
  { exp := "01-hidden-classes", variant := Variant.baseline, trace := true,
    profile := true, warmup := 1000, repeatCount := 100000 }

/-- A sample admission. -/
def sub0 : Submission := { id := "run-1", now := 100, env := env0, options := opts0 }

/-- A sample admission with tracing and profiling enabled. -/
def subTrace : Submission := { id := "run-7", now := 100, env := env0, options := optsTrace }

/-- A clean, successful execution. -/
def exec0 : RunExec := { startedAt := 200, finishedAt := 300, chunks := [], outcome := ExecOutcome.success }

/-- The record a subscriber reads for an already-completed run. -/
def r0 : RunMetadata := terminalMetadata (mkQueuedRun sub0) exec0

/-- The `execa` error thrown when the wall-clock timeout kills the child:
no exit code, `timedOut` set. -/
def errTimeout : ExecaError :=
  { exitCode := none, timedOut := true,
    message := "Command timed out after 600000 milliseconds" }

/-- The `execa` error for a child that ran and exited with code 1. -/
def errExit1 : ExecaError :=
  { exitCode := some 1, timedOut := false,
    message := "Command failed with exit code 1" }

/-- The `execa` error for a child that could not be spawned at all. -/
def errSpawn : ExecaError :=
  { exitCode := none, timedOut := false, message := "spawn node ENOENT" }

/-- An execution killed by the timeout. -/
def execTimeout : RunExec :=
  { startedAt := 200, finishedAt := 600200, chunks := [], outcome := ExecOutcome.failure errTimeout }

/-- An execution that ran to completion and failed with exit code 1,
with the same timing as `execTimeout`. -/
def execExit1 : RunExec :=
  { startedAt := 200, finishedAt := 600200, chunks := [], outcome := ExecOutcome.failure errExit1 }

/-- An execution whose spawn failed outright. -/
def execSpawn : RunExec :=
  { startedAt := 200, finishedAt := 205, chunks := [], outcome := ExecOutcome.failure errSpawn }

/-- An ordinary exit-1 failure with the same timing as `execSpawn`. -/
def execSpawnTwin : RunExec :=
  { startedAt := 200, finishedAt := 205, chunks := [], outcome := ExecOutcome.failure errExit1 }

/-- A failed execution of the tracing-enabled run `subTrace`. -/
def execFail7 : RunExec :=
  { startedAt := 200, finishedAt := 300, chunks := [], outcome := ExecOutcome.failure errExit1 }

/-- A request body whose `warmup` exceeds the upper bound 100000. -/
def bodyOutOfRange : RunRequestBody :=
  { exp := some "01-hidden-classes", variant := some "baseline", trace := none,
    profile := none, warmup := some 200000, repeatCount := none }

/-- A request body with both numeric fields in bounds. -/
def bodyInBounds : RunRequestBody :=
  { exp := some "01-hidden-classes", variant := some "baseline", trace := none,
    profile := none, warmup := some 500, repeatCount := some 10 }

/-- A well-formed script identifier that names no catalog entry. -/
def bodyUnknownScript : RunRequestBody :=
  { exp := some "zz-no-such-experiment", variant := some "baseline", trace := none,
    profile := none, warmup := none, repeatCount := none }

/-- A request body with a malformed script identifier. -/
def bodyBadScript : RunRequestBody :=
  { exp := some "BAD NAME!", variant := some "baseline", trace := none,
    profile := none, warmup := none, repeatCount := none }

/-- The validated options the schema produces for `bodyUnknownScript`. -/
def opts0Unknown : RunOptions :=
  { exp := "zz-no-such-experiment", variant := Variant.baseline, trace := false,
    profile := false, warmup := 1000, repeatCount := 100000 }

/-- A request body omitting every optional option field. -/
def bodyDefaults : RunRequestBody :=
  { exp := some "01-hidden-classes", variant := some "baseline", trace := none,
    profile := none, warmup := none, repeatCount := none }

/-! ## Store counting lemmas -/

theorem countRunning_nil : countRunning [] = 0 := rfl

theorem countRunning_cons (p : String × RunMetadata) (s : Store) :
    countRunning (p :: s) = (if isRunning p.2 then 1 else 0) + countRunning s := by
  by_cases h : isRunning p.2 <;> simp [countRunning, List.filter_cons, h]
  omega

theorem countRunning_applySave_le (s : Store) (m : RunMetadata) :
    countRunning (applySave s m) ≤ (if isRunning m then 1 else 0) + countRunning s := by
  induction s with
  | nil =>
    simp [applySave, countRunning_cons, countRunning_nil]
  | cons p rest ih =>
    by_cases h : p.1 = m.id
    · simp only [applySave, if_pos h, countRunning_cons]
      by_cases hp : isRunning p.2 <;> by_cases hm : isRunning m <;>
        simp [hp, hm]
    · simp only [applySave, if_neg h, countRunning_cons]
      by_cases hp : isRunning p.2 <;> by_cases hm : isRunning m <;>
        simp [hp, hm] at ih ⊢ <;> omega

theorem countRunning_applySave_eq_zero (s : Store) (m : RunMetadata)
    (hm : isRunning m = false) (h : countRunning s = 0) :
    countRunning (applySave s m) = 0 := by
  induction s with
  | nil => simp [applySave, countRunning_cons, countRunning_nil, hm]
  | cons p rest ih =>
    rw [countRunning_cons] at h
    have hrest : countRunning rest = 0 := by omega
    have hp0 : (if isRunning p.2 then 1 else 0) = 0 := by omega
    by_cases hp : p.1 = m.id
    · simp [applySave, if_pos hp, countRunning_cons, hm, hrest]
    · simp [applySave, if_neg hp, countRunning_cons, ih hrest, hp0]

theorem countRunning_applySave_pair (s : Store) (m1 m2 : RunMetadata)
    (hid : m2.id = m1.id) (h2 : isRunning m2 = false) (h : countRunning s = 0) :
    countRunning (applySave (applySave s m1) m2) = 0 := by
  induction s with
  | nil =>
    simp [applySave, hid, countRunning_cons, countRunning_nil, h2]
  | cons p rest ih =>
    rw [countRunning_cons] at h
    have hrest : countRunning rest = 0 := by omega
    have hp0 : (if isRunning p.2 then 1 else 0) = 0 := by omega
    by_cases hp : p.1 = m1.id
    · simp [applySave, if_pos hp, hid, countRunning_cons, h2, hrest]
    · have hp2 : ¬ p.1 = m2.id := by rw [hid]; exact hp
      simp [applySave, if_neg hp, if_neg hp2, countRunning_cons, ih hrest, hp0]

/-! ## Status and identity facts about the saves of one run -/

theorem isRunning_createRunMetadata (id : String) (now : Nat) (env : Environment)
    (o : RunOptions) : isRunning (createRunMetadata id now env o) = false := rfl

theorem isRunning_runningMetadata (m : RunMetadata) (t : Nat) :
    isRunning (runningMetadata m t) = true := rfl

theorem isRunning_terminalMetadata (q : QueuedRun) (e : RunExec) :
    isRunning (terminalMetadata q e) = false := by
  rcases e with ⟨st, fin, ch, o⟩
  cases o <;> rfl

theorem terminalMetadata_id (q : QueuedRun) (e : RunExec) :
    (terminalMetadata q e).id = q.metadata.id := by
  rcases e with ⟨st, fin, ch, o⟩
  cases o <;> rfl

theorem runningMetadata_id (m : RunMetadata) (t : Nat) :
    (runningMetadata m t).id = m.id := rfl

theorem traceSaves_cons (i : TraceItem) (items : List TraceItem) :
    traceSaves (i :: items) = itemSaves i ++ traceSaves items := by
  simp [traceSaves]

/-- The single-worker invariant, generalized over any starting store with no
running record: every prefix of the save trace leaves at most one record in
status `'running'`. -/
theorem trace_take_countRunning (items : List TraceItem) :
    ∀ (s : Store), countRunning s = 0 → ∀ n : Nat,
      countRunning (((traceSaves items).take n).foldl applySave s) ≤ 1 := by
  induction items with
  | nil =>
    intro s h n
    simp [traceSaves, h]
  | cons i rest ih =>
    intro s h n
    rw [traceSaves_cons]
    cases i with
    | submit sub =>
      cases n with
      | zero => simp [h]
      | succ n =>
        simp only [itemSaves, List.cons_append, List.nil_append, List.take_succ_cons,
          List.foldl_cons]
        exact ih _ (countRunning_applySave_eq_zero s
          (createRunMetadata sub.id sub.now sub.env sub.options)
          (isRunning_createRunMetadata _ _ _ _) h) n
    | execute sub e =>
      match n with
      | 0 =>
        simpa using Nat.le_of_lt (Nat.lt_succ_of_le (Nat.le_of_eq h))
      | 1 =>
        have hle := countRunning_applySave_le s (runningMetadata (mkQueuedRun sub).metadata e.startedAt)
        simp only [itemSaves, executeRunSaves, List.cons_append, List.nil_append,
          List.take_succ_cons, List.take_zero, List.foldl_cons, List.foldl_nil]
        simpa [isRunning_runningMetadata, h] using hle
      | Nat.succ (Nat.succ n) =>
        simp only [itemSaves, executeRunSaves, List.cons_append, List.nil_append,
          List.take_succ_cons, List.foldl_cons]
        refine ih _ ?_ n
        exact countRunning_applySave_pair s _ _
          (by rw [terminalMetadata_id, runningMetadata_id])
          (isRunning_terminalMetadata _ _) h

/-- C1: at every instant at most one Run has status Running.  A system
history is a sequence of trace items — `createRun` admissions (which save a
`'queued'` record) and complete `executeRun` executions by the single
worker loop of `processQueue` (which save a `'running'` snapshot and then a
terminal `'completed'`/`'failed'` record, in that order, before the next
run is touched).  After replaying any prefix of the resulting
`saveMetadata` sequence onto an initially empty store, the number of
persisted records in status `'running'` is at most one. -/
theorem processQueue_at_most_one_running (items : List TraceItem) (n : Nat) :
    countRunning (((traceSaves items).take n).foldl applySave []) ≤ 1 :=
  trace_take_countRunning items [] rfl n

/-! ## C2 — subscribing to an already-terminal run -/

/-- C2 counterexample: subscribing to the already-completed run `r0` does
not yield exactly one event — the route writes an initial `status` event
before the `complete` event, so the stream holds two events, not one. -/
theorem stream_terminal_two_events_counterexample :
    isTerminal r0.status = true ∧
    streamEvents r0 [] ≠ [SSEEvent.complete r0] := by
  constructor
  · rfl
  · simp [streamEvents]

/-- C2 (amended): for a run already terminal at subscription time the
stream emits exactly one `complete` event carrying the final record and no
stdout or stderr chunk events, then closes — but the `complete` event is
preceded by exactly one `status` event, so the whole stream is
`[status, complete]` rather than `[complete]` alone. -/
theorem stream_terminal_events (run : RunMetadata) (live : List RunEvent)
    (h : isTerminal run.status = true) :
    streamEvents run live = [SSEEvent.status run.status, SSEEvent.complete run] := by
  simp [streamEvents, h]

/-- Witness for `stream_terminal_events` at the concrete completed run `r0`. -/
theorem stream_terminal_events_witness :
    streamEvents r0 [] = [SSEEvent.status r0.status, SSEEvent.complete r0] :=
  stream_terminal_events r0 [] rfl

/-! ## C3 — timeout runs carry no distinguishing marker -/

/-- C3 counterexample: the run killed by the wall-clock timeout
(`errTimeout`, `timedOut = true`, no exit code) and the run that executed
and exited with code 1 (`errExit1`) persist identical terminal records, so
the record carries no marker letting a caller tell them apart. -/
theorem timeout_no_marker_counterexample :
    errTimeout.timedOut = true ∧ errExit1.timedOut = false ∧
    (terminalMetadata (mkQueuedRun sub0) execTimeout).status = RunStatus.failed ∧
    terminalMetadata (mkQueuedRun sub0) execTimeout =
      terminalMetadata (mkQueuedRun sub0) execExit1 := by
  refine ⟨rfl, rfl, rfl, ?_⟩
  rfl

/-- C3 (amended): a run whose process is killed on timeout is persisted as
a terminal Failed record with `exitCode = error.exitCode || 1`, but no
TimedOut marker is recorded: any non-timeout failure with the same timing
and the same defaulted exit code persists the very same record. -/
theorem timeout_failed_record (sub : Submission) (st fin : Nat)
    (ch : List (Bool × String)) (errT errF : ExecaError)
    (_hT : errT.timedOut = true)
    (hcode : jsOrInt errT.exitCode 1 = jsOrInt errF.exitCode 1) :
    (terminalMetadata (mkQueuedRun sub)
        { startedAt := st, finishedAt := fin, chunks := ch,
          outcome := ExecOutcome.failure errT }).status = RunStatus.failed ∧
    terminalMetadata (mkQueuedRun sub)
        { startedAt := st, finishedAt := fin, chunks := ch,
          outcome := ExecOutcome.failure errT } =
      terminalMetadata (mkQueuedRun sub)
        { startedAt := st, finishedAt := fin, chunks := ch,
          outcome := ExecOutcome.failure errF } := by
  constructor
  · rfl
  · simp [terminalMetadata, hcode]

/-- Witness for `timeout_failed_record` at the concrete timed-out execution. -/
theorem timeout_failed_record_witness :
    (terminalMetadata (mkQueuedRun sub0) execTimeout).status = RunStatus.failed :=
  (timeout_failed_record sub0 200 600200 [] errTimeout errExit1 rfl rfl).1

/-! ## C4 — numeric bounds validation -/

theorem checkIntField_out (n lo hi dflt : Int) (h : n < lo ∨ hi < n) :
    checkIntField (some n) lo hi dflt = none := by
  simp only [checkIntField]
  split
  · next hc =>
    exfalso
    simp only [Bool.and_eq_true, decide_eq_true_eq] at hc
    omega
  · rfl

theorem checkIntField_in (n lo hi dflt : Int) (h1 : lo ≤ n) (h2 : n ≤ hi) :
    checkIntField (some n) lo hi dflt = some n := by
  simp [checkIntField, h1, h2]

theorem parse_none_of_checkWarmup_none (b : RunRequestBody)
    (hw : checkIntField b.warmup 0 100000 1000 = none) :
    runOptionsSchemaParse b = none := by
  cases hbe : b.exp with
  | none => simp [runOptionsSchemaParse, hbe]
  | some e =>
    by_cases hv : validExpId e
    · cases hbv : b.variant with
      | none => simp [runOptionsSchemaParse, hbe, hv, hbv]
      | some vs =>
        cases hpv : parseVariant vs with
        | none => simp [runOptionsSchemaParse, hbe, hv, hbv, hpv]
        | some v => simp [runOptionsSchemaParse, hbe, hv, hbv, hpv, hw]
    · simp [runOptionsSchemaParse, hbe, hv]

theorem parse_none_of_checkRepeat_none (b : RunRequestBody)
    (hr : checkIntField b.repeatCount 1 1000000 100000 = none) :
    runOptionsSchemaParse b = none := by
  cases hbe : b.exp with
  | none => simp [runOptionsSchemaParse, hbe]
  | some e =>
    by_cases hv : validExpId e
    · cases hbv : b.variant with
      | none => simp [runOptionsSchemaParse, hbe, hv, hbv]
      | some vs =>
        cases hpv : parseVariant vs with
        | none => simp [runOptionsSchemaParse, hbe, hv, hbv, hpv]
        | some v =>
          cases hwv : checkIntField b.warmup 0 100000 1000 with
          | none => simp [runOptionsSchemaParse, hbe, hv, hbv, hpv, hwv]
          | some w => simp [runOptionsSchemaParse, hbe, hv, hbv, hpv, hwv, hr]
    · simp [runOptionsSchemaParse, hbe, hv]

/-- C4: a submission whose `warmup` lies outside `[0, 100000]` or whose
`repeat` lies outside `[1, 1000000]` is rejected by `POST /api/runs` with
HTTP 400: the queue is untouched and no record is saved; conversely an
in-bounds value passes the corresponding schema check. -/
theorem submit_bounds_validation (b : RunRequestBody) (id : String) (now : Nat)
    (env : Environment) (queue : List QueuedRun) :
    (((∃ w, b.warmup = some w ∧ (w < 0 ∨ 100000 < w)) ∨
      (∃ r, b.repeatCount = some r ∧ (r < 1 ∨ 1000000 < r))) →
      postRun b id now env queue =
        { statusCode := 400, newQueue := queue, storeSaves := [], returnedId := none }) ∧
    (∀ w, b.warmup = some w → 0 ≤ w → w ≤ 100000 →
      checkIntField b.warmup 0 100000 1000 = some w) ∧
    (∀ r, b.repeatCount = some r → 1 ≤ r → r ≤ 1000000 →
      checkIntField b.repeatCount 1 1000000 100000 = some r) := by
  refine ⟨?_, ?_, ?_⟩
  · rintro (⟨w, hw, hout⟩ | ⟨r, hr, hout⟩)
    · have h1 : checkIntField b.warmup 0 100000 1000 = none := by
        rw [hw]; exact checkIntField_out w 0 100000 1000 hout
      simp [postRun, parse_none_of_checkWarmup_none b h1]
    · have h1 : checkIntField b.repeatCount 1 1000000 100000 = none := by
        rw [hr]; exact checkIntField_out r 1 1000000 100000 hout
      simp [postRun, parse_none_of_checkRepeat_none b h1]
  · intro w hw h1 h2
    rw [hw]; exact checkIntField_in w 0 100000 1000 h1 h2
  · intro r hr h1 h2
    rw [hr]; exact checkIntField_in r 1 1000000 100000 h1 h2

/-- Witness for `submit_bounds_validation`: a warmup of 200000 is rejected
with nothing queued or saved, and a warmup of 500 passes the schema check. -/
theorem submit_bounds_validation_witness :
    postRun bodyOutOfRange "run-4" 0 env0 [] =
      { statusCode := 400, newQueue := [], storeSaves := [], returnedId := none } ∧
    checkIntField bodyInBounds.warmup 0 100000 1000 = some 500 :=
  ⟨(submit_bounds_validation bodyOutOfRange "run-4" 0 env0 []).1
      (Or.inl ⟨200000, rfl, Or.inr (by decide)⟩),
   (submit_bounds_validation bodyInBounds "run-4" 0 env0 []).2.1 500 rfl
      (by decide) (by decide)⟩

/-! ## C5 — unknown script identifiers are not rejected at submit -/

/-- C5 counterexample: `zz-no-such-experiment` names no catalog entry, yet
`POST /api/runs` admits it: HTTP 201, a RunId returned, the run enqueued
and its queued record saved. -/
theorem unknown_script_admitted_counterexample :
    ("zz-no-such-experiment" ∈ knownExperiments → False) ∧
    (postRun bodyUnknownScript "run-5" 0 env0 []).statusCode = 201 ∧
    (postRun bodyUnknownScript "run-5" 0 env0 []).returnedId = some "run-5" ∧
    (postRun bodyUnknownScript "run-5" 0 env0 []).newQueue ≠ [] ∧
    (postRun bodyUnknownScript "run-5" 0 env0 []).storeSaves ≠ [] := by
  refine ⟨by decide, by decide, by decide, by decide, by decide⟩

/-- C5 (amended): admission validates only the format of the script
identifier (nonempty, at most 100 characters, all in `[\w-]`); a malformed
identifier is rejected with HTTP 400 and nothing is created, but any body
the schema accepts — catalog entry or not — is admitted: a RunId is
returned and the run is enqueued and persisted. -/
theorem submit_script_format_only (b : RunRequestBody) (id : String) (now : Nat)
    (env : Environment) (queue : List QueuedRun) :
    (∀ e, b.exp = some e → validExpId e = false →
      postRun b id now env queue =
        { statusCode := 400, newQueue := queue, storeSaves := [], returnedId := none }) ∧
    (∀ o, runOptionsSchemaParse b = some o →
      postRun b id now env queue =
        { statusCode := 201
          newQueue := queue ++ [{ id := id, options := o, metadata := createRunMetadata id now env o }]
          storeSaves := [createRunMetadata id now env o]
          returnedId := some id }) := by
  constructor
  · intro e he hv
    have hnone : runOptionsSchemaParse b = none := by
      simp [runOptionsSchemaParse, he, hv]
    simp [postRun, hnone]
  · intro o ho
    simp [postRun, ho]

/-- Witness for `submit_script_format_only` at a malformed identifier and
at the well-formed unknown identifier. -/
theorem submit_script_format_only_witness :
    postRun bodyBadScript "run-5w" 0 env0 [] =
      { statusCode := 400, newQueue := [], storeSaves := [], returnedId := none } ∧
    postRun bodyUnknownScript "run-5w" 0 env0 [] =
      { statusCode := 201
        newQueue := [{ id := "run-5w", options := opts0Unknown,
                       metadata := createRunMetadata "run-5w" 0 env0 opts0Unknown }]
        storeSaves := [createRunMetadata "run-5w" 0 env0 opts0Unknown]
        returnedId := some "run-5w" } :=
  ⟨(submit_script_format_only bodyBadScript "run-5w" 0 env0 []).1 "BAD NAME!" rfl (by decide),
   (submit_script_format_only bodyUnknownScript "run-5w" 0 env0 []).2 opts0Unknown (by decide)⟩

/-! ## C6 — spawn failures -/

/-- C6 counterexample: a spawn failure (`errSpawn`, no exit code) persists
`exitCode = 1` — the same record, byte for byte, as an ordinary run that
executed and exited with code 1, so the value is not a reserved sentinel —
and its error text is emitted as an `error` event on the live channel, not
as a stderr chunk: the emitted events contain no stderr event at all. -/
theorem spawn_failure_counterexample :
    errSpawn.exitCode = none ∧
    (terminalMetadata (mkQueuedRun sub0) execSpawn).results =
      some { exitCode := 1, durationMs := 5 } ∧
    terminalMetadata (mkQueuedRun sub0) execSpawn =
      terminalMetadata (mkQueuedRun sub0) execSpawnTwin ∧
    (executeRunEvents (mkQueuedRun sub0) execSpawn).all
      (fun ev => match ev with
        | RunEvent.stderr _ _ => false
        | _ => true) = true ∧
    RunEvent.error sub0.id "spawn node ENOENT" ∈
      executeRunEvents (mkQueuedRun sub0) execSpawn := by
  refine ⟨rfl, by decide, by decide, by decide, by decide⟩

/-- C6 (amended): a run whose process cannot be spawned is surfaced as a
terminal Failed record with `exitCode = error.exitCode || 1` — which equals
1, a value shared with ordinary failing runs rather than a reserved
sentinel — with its artifacts left empty; the spawn error text is emitted
as an `error` event on the live stream (not captured as stderr), and
`executeRun` performs exactly one running save and one terminal save, with
no retry. -/
theorem spawn_failure_record (sub : Submission) (st fin : Nat) (err : ExecaError)
    (hnone : err.exitCode = none) :
    (terminalMetadata (mkQueuedRun sub)
        { startedAt := st, finishedAt := fin, chunks := [],
          outcome := ExecOutcome.failure err }).status = RunStatus.failed ∧
    (terminalMetadata (mkQueuedRun sub)
        { startedAt := st, finishedAt := fin, chunks := [],
          outcome := ExecOutcome.failure err }).results =
      some { exitCode := 1, durationMs := (fin : Int) - (st : Int) } ∧
    (terminalMetadata (mkQueuedRun sub)
        { startedAt := st, finishedAt := fin, chunks := [],
          outcome := ExecOutcome.failure err }).artifacts = emptyArtifacts ∧
    executeRunEvents (mkQueuedRun sub)
        { startedAt := st, finishedAt := fin, chunks := [],
          outcome := ExecOutcome.failure err } =
      [RunEvent.start sub.id,
       RunEvent.error sub.id (jsOrStr err.message "Unknown error"),
       RunEvent.complete sub.id (terminalMetadata (mkQueuedRun sub)
         { startedAt := st, finishedAt := fin, chunks := [],
           outcome := ExecOutcome.failure err })] ∧
    executeRunSaves (mkQueuedRun sub)
        { startedAt := st, finishedAt := fin, chunks := [],
          outcome := ExecOutcome.failure err } =
      [runningMetadata (mkQueuedRun sub).metadata st,
       terminalMetadata (mkQueuedRun sub)
         { startedAt := st, finishedAt := fin, chunks := [],
           outcome := ExecOutcome.failure err }] := by
  refine ⟨rfl, ?_, rfl, ?_, rfl⟩
  · simp [terminalMetadata, jsOrInt, hnone]
  · simp [executeRunEvents, mkQueuedRun]

/-- Witness for `spawn_failure_record` at the concrete spawn failure. -/
theorem spawn_failure_record_witness :
    (terminalMetadata (mkQueuedRun sub0) execSpawn).status = RunStatus.failed ∧
    (terminalMetadata (mkQueuedRun sub0) execSpawn).artifacts = emptyArtifacts :=
  ⟨(spawn_failure_record sub0 200 205 errSpawn rfl).1,
   (spawn_failure_record sub0 200 205 errSpawn rfl).2.2.1⟩

/-! ## C7 — artifact paths versus trace/profile flags -/

/-- C7 counterexample: the run `subTrace` enabled `trace`, reached the
terminal status `failed`, yet its persisted record has no stderr artifact
path — so "populated if and only if trace was enabled" fails on failed
runs. -/
theorem artifacts_iff_counterexample :
    (mkQueuedRun subTrace).options.trace = true ∧
    isTerminal (terminalMetadata (mkQueuedRun subTrace) execFail7).status = true ∧
    (terminalMetadata (mkQueuedRun subTrace) execFail7).artifacts.stderr = none := by
  refine ⟨rfl, rfl, rfl⟩

/-- C7 (amended): in every terminal record the stderr artifact is populated
only if the request enabled `trace` and the profile artifact only if it
enabled `profile`; for runs that completed successfully the equivalence is
exact, but a failed run's artifacts stay empty even when the flags were
set. -/
theorem artifacts_trace_profile (sub : Submission) (e : RunExec) :
    ((terminalMetadata (mkQueuedRun sub) e).artifacts.stderr.isSome = true →
      sub.options.trace = true) ∧
    ((terminalMetadata (mkQueuedRun sub) e).artifacts.cpuProfile.isSome = true →
      sub.options.profile = true) ∧
    (e.outcome = ExecOutcome.success →
      (terminalMetadata (mkQueuedRun sub) e).artifacts.stderr.isSome = sub.options.trace ∧
      (terminalMetadata (mkQueuedRun sub) e).artifacts.cpuProfile.isSome = sub.options.profile) ∧
    (∀ err, e.outcome = ExecOutcome.failure err →
      (terminalMetadata (mkQueuedRun sub) e).artifacts = emptyArtifacts) := by
  rcases e with ⟨st, fin, ch, o⟩
  cases o with
  | success =>
    refine ⟨?_, ?_, ?_, ?_⟩
    · cases htr : sub.options.trace with
      | false =>
        intro h
        exfalso
        simp [terminalMetadata, successArtifacts, mkQueuedRun, createRunMetadata, htr] at h
      | true => intro _; rfl
    · cases hpr : sub.options.profile with
      | false =>
        intro h
        exfalso
        simp [terminalMetadata, successArtifacts, mkQueuedRun, createRunMetadata, hpr] at h
      | true => intro _; rfl
    · intro _
      constructor
      · cases htr : sub.options.trace <;>
          simp [terminalMetadata, successArtifacts, mkQueuedRun, createRunMetadata, htr]
      · cases hpr : sub.options.profile <;>
          simp [terminalMetadata, successArtifacts, mkQueuedRun, createRunMetadata, hpr]
    · intro err h
      exact ExecOutcome.noConfusion h
  | failure err =>
    refine ⟨?_, ?_, ?_, ?_⟩
    · intro h
      exfalso
      simp [terminalMetadata, runningMetadata, mkQueuedRun, createRunMetadata,
        emptyArtifacts] at h
    · intro h
      exfalso
      simp [terminalMetadata, runningMetadata, mkQueuedRun, createRunMetadata,
        emptyArtifacts] at h
    · intro h
      exact ExecOutcome.noConfusion h
    · intro err2 _
      rfl

/-- Witness for `artifacts_trace_profile` at a completed tracing run. -/
theorem artifacts_trace_profile_witness :
    (terminalMetadata (mkQueuedRun subTrace) exec0).artifacts.stderr.isSome =
      subTrace.options.trace :=
  ((artifacts_trace_profile subTrace exec0).2.2.1 rfl).1

/-! ## C8 — listing runs -/

/-- C8: `listRuns` returns the persisted records ordered newest submission
first — sorted so that each record's `timestamps.queued` is at least that
of every later record — and the output is a permutation of exactly the
records that parsed: stored files that fail to parse are skipped without
aborting the listing. -/
theorem listRuns_sorted_newest_first (files : List StoredFile) :
    List.Sorted newerFirst (listRuns files) ∧
      List.Perm (listRuns files) (parsedRuns files) :=
  ⟨List.sorted_insertionSort newerFirst (parsedRuns files),
   List.perm_insertionSort newerFirst (parsedRuns files)⟩

/-! ## C9 — when the environment snapshot is taken -/

/-- C9 counterexample: the environment snapshot already sits in the record
`createRun` persists with status `'queued'` — before any Running
transition — and `executeRun` (which performs that transition) takes no
environment input and leaves the field untouched; concretely, when the
host's runtime info is `env0` at admission and `env9 ≠ env0` at the instant
the run transitions to Running, the terminal record still carries `env0`. -/
theorem environment_at_admission_counterexample :
    (createRunMetadata sub0.id sub0.now sub0.env sub0.options).status = RunStatus.queued ∧
    (createRunMetadata sub0.id sub0.now sub0.env sub0.options).environment = env0 ∧
    (runningMetadata (mkQueuedRun sub0).metadata exec0.startedAt).environment = env0 ∧
    (terminalMetadata (mkQueuedRun sub0) exec0).environment = env0 ∧
    env0 ≠ env9 := by
  refine ⟨rfl, rfl, rfl, rfl, by decide⟩

/-- C9 (amended): a Run's `environment` field is the snapshot captured by
`createRun` at admission (while the record's status is still `'queued'`),
and it is preserved unchanged through the Running transition and into the
terminal record — it is not recaptured when the Run starts. -/
theorem environment_snapshot_at_admission (sub : Submission) (e : RunExec) :
    (createRunMetadata sub.id sub.now sub.env sub.options).status = RunStatus.queued ∧
    (createRunMetadata sub.id sub.now sub.env sub.options).environment = sub.env ∧
    (runningMetadata (mkQueuedRun sub).metadata e.startedAt).environment = sub.env ∧
    (terminalMetadata (mkQueuedRun sub) e).environment = sub.env := by
  refine ⟨rfl, rfl, rfl, ?_⟩
  rcases e with ⟨st, fin, ch, o⟩
  cases o <;> rfl

/-! ## C10 — defaults for omitted option fields -/

/-- C10: a submission that omits an optional option field is admitted with
the fixed default filled in — `trace = false`, `profile = false`,
`warmup = 1000`, `repeat = 100000` — and the admitted Run's recorded
options carry exactly the validated values. -/
theorem defaults_applied (b : RunRequestBody) (o : RunOptions) (id : String)
    (now : Nat) (env : Environment) (h : runOptionsSchemaParse b = some o) :
    (b.trace = none → o.trace = false) ∧
    (b.profile = none → o.profile = false) ∧
    (b.warmup = none → o.warmup = 1000) ∧
    (b.repeatCount = none → o.repeatCount = 100000) ∧
    (createRunMetadata id now env o).options =
      { trace := o.trace, profile := o.profile, warmup := o.warmup,
        repeatCount := o.repeatCount } := by
  cases hbe : b.exp with
  | none => simp [runOptionsSchemaParse, hbe] at h
  | some e =>
    by_cases hv : validExpId e
    · cases hbv : b.variant with
      | none => simp [runOptionsSchemaParse, hbe, hv, hbv] at h
      | some vs =>
        cases hpv : parseVariant vs with
        | none => simp [runOptionsSchemaParse, hbe, hv, hbv, hpv] at h
        | some v =>
          cases hw : checkIntField b.warmup 0 100000 1000 with
          | none => simp [runOptionsSchemaParse, hbe, hv, hbv, hpv, hw] at h
          | some w =>
            cases hr : checkIntField b.repeatCount 1 1000000 100000 with
            | none => simp [runOptionsSchemaParse, hbe, hv, hbv, hpv, hw, hr] at h
            | some r =>
              simp only [runOptionsSchemaParse, hbe, hv, hbv, hpv, hw, hr, if_pos,
                Option.some.injEq] at h
              subst h
              refine ⟨fun ht => ?_, fun hp => ?_, fun hwn => ?_, fun hrn => ?_, rfl⟩
              · simp [ht]
              · simp [hp]
              · show w = 1000
                rw [hwn] at hw
                simp [checkIntField] at hw
                omega
              · show r = 100000
                rw [hrn] at hr
                simp [checkIntField] at hr
                omega
    · simp [runOptionsSchemaParse, hbe, hv] at h

/-- Witness for `defaults_applied` at a body omitting all optional fields. -/
theorem defaults_applied_witness :
    opts0.trace = false ∧ opts0.warmup = 1000 ∧ opts0.repeatCount = 100000 ∧
    (createRunMetadata "run-10" 0 env0 opts0).options =
      { trace := opts0.trace, profile := opts0.profile, warmup := opts0.warmup,
        repeatCount := opts0.repeatCount } :=
  ⟨(defaults_applied bodyDefaults opts0 "run-10" 0 env0 (by decide)).1 rfl,
   (defaults_applied bodyDefaults opts0 "run-10" 0 env0 (by decide)).2.2.1 rfl,
   (defaults_applied bodyDefaults opts0 "run-10" 0 env0 (by decide)).2.2.2.1 rfl,
   (defaults_applied bodyDefaults opts0 "run-10" 0 env0 (by decide)).2.2.2.2⟩
